import Mathlib

/-!
Shallow embedding of `src/tiled/objectselectiontool.cpp` (the object
selection tool of the Tiled map editor) and proofs about it.

Conventions of the embedding:
* `qreal` coordinates are modelled by `ℚ` (exact arithmetic in place of
  floating point).
* `QPointF` becomes `Point`, `QSizeF` becomes `SizeF`, `QRectF` becomes
  `Rect` (stored as x, y, width, height, matching Qt's representation;
  `QRectF.right = x + width`, `QRectF.bottom = y + height`).
* The `MapRenderer` is an abstract pair of coordinate conversions
  (`pixelToScreenCoords` / `screenToPixelCoords`), passed in as data.
* Trigonometric values (results of `std::sin` / `std::cos` / `std::atan2`)
  are transcendental; wherever the code uses them they are passed to the
  embedded function as explicit inputs (a `Rot` cosine/sine pair, or the
  already-computed `atan2` angle difference), so every definition stays
  executable.
-/

namespace Tiled

/-- `QPointF`: a 2D point with rational coordinates. -/
structure Point where
  x : ℚ
  y : ℚ
deriving DecidableEq, Repr

instance : Add Point := ⟨fun p q => ⟨p.x + q.x, p.y + q.y⟩⟩

instance : Sub Point := ⟨fun p q => ⟨p.x - q.x, p.y - q.y⟩⟩

instance : Neg Point := ⟨fun p => ⟨-p.x, -p.y⟩⟩

theorem Point.add_def (p q : Point) : p + q = ⟨p.x + q.x, p.y + q.y⟩ := rfl

theorem Point.sub_def (p q : Point) : p - q = ⟨p.x - q.x, p.y - q.y⟩ := rfl

theorem Point.neg_def (p : Point) : -p = ⟨-p.x, -p.y⟩ := rfl

/-- `QSizeF`: a width/height pair. -/
structure SizeF where
  width : ℚ
  height : ℚ
deriving DecidableEq, Repr

/-- `QRectF`: stored as top-left corner plus width and height. -/
structure Rect where
  x : ℚ
  y : ℚ
  width : ℚ
  height : ℚ
deriving DecidableEq, Repr

def Rect.topLeft (r : Rect) : Point := ⟨r.x, r.y⟩

def Rect.size (r : Rect) : SizeF := ⟨r.width, r.height⟩

/-- `QRectF::translate`. -/
def Rect.translate (r : Rect) (p : Point) : Rect :=
  { r with x := r.x + p.x, y := r.y + p.y }

/-- `QRectF::setLeft`: moves the left edge, keeping the right edge fixed. -/
def Rect.setLeft (r : Rect) (v : ℚ) : Rect :=
  { r with x := v, width := r.x + r.width - v }

/-- `QRectF::setRight`: moves the right edge (`x + width`), keeping the left edge fixed. -/
def Rect.setRight (r : Rect) (v : ℚ) : Rect :=
  { r with width := v - r.x }

/-- `QRectF::setTop`: moves the top edge, keeping the bottom edge fixed. -/
def Rect.setTop (r : Rect) (v : ℚ) : Rect :=
  { r with y := v, height := r.y + r.height - v }

/-- `QRectF::setBottom`: moves the bottom edge (`y + height`), keeping the top edge fixed. -/
def Rect.setBottom (r : Rect) (v : ℚ) : Rect :=
  { r with height := v - r.y }

/-- The nine `Alignment` anchor values. -/
inductive Alignment where
  | TopLeft
  | Top
  | TopRight
  | Left
  | Center
  | Right
  | BottomLeft
  | Bottom
  | BottomRight
deriving DecidableEq, Repr

/-- `alignmentOffset` from objectselectiontool.cpp: the vector from the
rectangle's top-left corner to the anchor point implied by `alignment`. -/
def alignmentOffset (r : Rect) (alignment : Alignment) : Point :=
  match alignment with
  | .TopLeft => ⟨0, 0⟩
  | .Top => ⟨r.width / 2, 0⟩
  | .TopRight => ⟨r.width, 0⟩
  | .Left => ⟨0, r.height / 2⟩
  | .Center => ⟨r.width / 2, r.height / 2⟩
  | .Right => ⟨r.width, r.height / 2⟩
  | .BottomLeft => ⟨0, r.height⟩
  | .Bottom => ⟨r.width / 2, r.height⟩
  | .BottomRight => ⟨r.width, r.height⟩

/-- `align` from objectselectiontool.cpp: translate so the anchor point
becomes the origin. -/
def align (r : Rect) (alignment : Alignment) : Rect :=
  r.translate (-(alignmentOffset r alignment))

/-- `unalign` from objectselectiontool.cpp: translate by the (positive)
alignment offset. -/
def unalign (r : Rect) (alignment : Alignment) : Rect :=
  r.translate (alignmentOffset r alignment)

theorem align_width (r : Rect) (a : Alignment) : (align r a).width = r.width := rfl

theorem align_height (r : Rect) (a : Alignment) : (align r a).height = r.height := rfl

/-- C9: For every rectangle and each of the 9 alignment values, applying
`align` and then `unalign` with the same alignment returns the original
rectangle exactly: `unalign` is the exact inverse of `align`, because the
alignment offset depends only on the rectangle's width and height, which
`align`'s translation does not change. -/
theorem unalign_align (r : Rect) (a : Alignment) : unalign (align r a) a = r := by
  cases a <;>
    simp [unalign, align, alignmentOffset, Rect.translate, Point.neg_def]

/-- Abstract `MapRenderer`: the pixel↔screen coordinate conversions,
supplied as data (the concrete conversion depends on the map orientation,
which is outside this file's scope). -/
structure Renderer where
  pixelToScreenCoords : Point → Point
  screenToPixelCoords : Point → Point

/-- The identity renderer (orthogonal 1:1 mapping), used to instantiate
theorems on concrete inputs. -/
def idRenderer : Renderer := ⟨id, id⟩

/-- A cosine/sine pair standing for `(cos θ, sin θ)` of some angle. The
code obtains these from `std::sin` / `std::cos` (or `QTransform::rotate`);
the embedding takes them as inputs since they are transcendental. -/
structure Rot where
  cs : ℚ
  sn : ℚ
deriving DecidableEq, Repr

/-- The rotation of angle zero: `cos 0 = 1`, `sin 0 = 0`. -/
def Rot.zero : Rot := ⟨1, 0⟩

/-- The inverse rotation: `cos (-θ) = cos θ`, `sin (-θ) = -sin θ`. -/
def Rot.inv (r : Rot) : Rot := ⟨r.cs, -r.sn⟩

/-- Apply a rotation (given by its cosine/sine) to a point:
`(x cos θ - y sin θ, x sin θ + y cos θ)`. -/
def Rot.apply (r : Rot) (p : Point) : Point :=
  ⟨p.x * r.cs - p.y * r.sn, p.x * r.sn + p.y * r.cs⟩

/-- `rotateAt` from objectselectiontool.cpp:
translate(position) ∘ rotate ∘ translate(-position), with the rotation
angle's trigonometric values supplied as a `Rot`. -/
def rotateAt (position : Point) (r : Rot) (p : Point) : Point :=
  position + r.apply (p - position)

theorem rotateAt_zero (position p : Point) : rotateAt position Rot.zero p = p := by
  simp [rotateAt, Rot.apply, Rot.zero, Point.add_def, Point.sub_def]

/-- `MovingObject` from objectselectiontool.h: the per-object snapshot
taken by `saveSelectionState` at gesture start. The `item` pointer is
modelled by an object identifier. -/
structure MovingObject where
  id : ℕ
  oldItemPosition : Point
  oldPosition : Point
  oldSize : SizeF
  oldPolygon : List Point
  oldRotation : ℚ
deriving DecidableEq, Repr

/-- Result of the live resize update applied to one object: the values
written by `resizeObject` / `setPos` / `setPosition` / `setPolygon`. -/
structure ResizedObject where
  id : ℕ
  newScreenPos : Point
  newPixelPos : Point
  newSize : SizeF
  newPolygon : Option (List Point)
deriving Repr

/-- The scaling factor computed by `ObjectSelectionTool::updateResizingItems`
for the multi-object case: each per-axis ratio is floored at 0.01
(`qMax((qreal)0.01, ...)`), axis-locked handles use only the unlocked
axis's ratio, and corner handles take the minimum of the two. -/
def multiResizeScale (limitHorizontal limitVertical : Bool) (diff startDiff : Point) : ℚ :=
  if limitHorizontal then
    max (1/100) (diff.y / startDiff.y)
  else if limitVertical then
    max (1/100) (diff.x / startDiff.x)
  else
    min (max (1/100) (diff.x / startDiff.x))
        (max (1/100) (diff.y / startDiff.y))

/-- The polygon rescaling performed by `updateResizingItems` for one
polygon point: rotate into the object's local frame (using the cosine/sine
of `rotation * -1`, as supplied), scale uniformly, rotate back. -/
def scalePolygonPoint (r : Rot) (scale : ℚ) (oldPoint : Point) : Point :=
  let rotPoint : Point := ⟨oldPoint.x * r.cs + oldPoint.y * r.sn,
                           oldPoint.y * r.cs - oldPoint.x * r.sn⟩
  let scaledPoint : Point := ⟨rotPoint.x * scale, rotPoint.y * scale⟩
  ⟨scaledPoint.x * r.cs - scaledPoint.y * r.sn,
   scaledPoint.y * r.cs + scaledPoint.x * r.sn⟩

/-- The body of the `foreach` loop of `updateResizingItems` (multi-object
case): scale the object's pivot-relative screen position and both size
axes by the single factor `scale`, and rescale polygon points in local
space. `trig` supplies, per object, the cosine/sine of
`item->rotation() * π / -180`. -/
def resizeMovingObject (renderer : Renderer) (trig : ℚ → Rot)
    (resizingOrigin : Point) (scale : ℚ) (o : MovingObject) : ResizedObject :=
  let oldRelPos := o.oldItemPosition - resizingOrigin
  let scaledRelPos : Point := ⟨oldRelPos.x * scale, oldRelPos.y * scale⟩
  let newScreenPos := resizingOrigin + scaledRelPos
  let newPos := renderer.screenToPixelCoords newScreenPos
  let newSize : SizeF := ⟨o.oldSize.width * scale, o.oldSize.height * scale⟩
  let newPolygon :=
    if o.oldPolygon.isEmpty then none
    else some (o.oldPolygon.map (scalePolygonPoint (trig o.oldRotation) scale))
  ⟨o.id, newScreenPos, newPos, newSize, newPolygon⟩

/-- `ObjectSelectionTool::updateResizingItems`, multi-object case
(`mMovingObjects.size() != 1`): compute `diff` and `startDiff` relative to
the resizing origin, derive the single scale factor, and apply it to every
snapshot object. `snappedScreenPos` is the (possibly grid-snapped) current
pointer position in screen coordinates, `start` is `mStart` (the clicked
handle's position). -/
def updateResizingItems (renderer : Renderer) (trig : ℚ → Rot)
    (limitHorizontal limitVertical : Bool) (resizingOrigin start snappedScreenPos : Point)
    (movingObjects : List MovingObject) : List ResizedObject :=
  let diff := snappedScreenPos - resizingOrigin
  let startDiff := start - resizingOrigin
  let scale := multiResizeScale limitHorizontal limitVertical diff startDiff
  movingObjects.map (resizeMovingObject renderer trig resizingOrigin scale)

/-- C1: For every multi-object resize gesture using an unlocked corner
handle (no axis limits), the single scale factor applied to every object's
pivot-relative position and to both size axes equals the minimum of the two
per-axis ratios (current pivot-relative offset over press-time
pivot-relative offset, per axis), each ratio first floored at 0.01;
consequently the factor is at least 0.01, and when the X-axis ratio is 2.0
and the Y-axis ratio is 3.0 the applied factor is exactly 2.0. -/
theorem multiResize_corner_min_scale (renderer : Renderer) (trig : ℚ → Rot)
    (resizingOrigin start snappedScreenPos : Point)
    (movingObjects : List MovingObject) (scale : ℚ)
    (hscale : scale = multiResizeScale false false
      (snappedScreenPos - resizingOrigin) (start - resizingOrigin)) :
    scale = min (max (1/100) ((snappedScreenPos - resizingOrigin).x / (start - resizingOrigin).x))
                (max (1/100) ((snappedScreenPos - resizingOrigin).y / (start - resizingOrigin).y)) ∧
    (1/100 : ℚ) ≤ scale ∧
    (∀ o ∈ movingObjects,
      resizeMovingObject renderer trig resizingOrigin scale o ∈
        updateResizingItems renderer trig false false resizingOrigin start
          snappedScreenPos movingObjects ∧
      (resizeMovingObject renderer trig resizingOrigin scale o).newScreenPos =
        resizingOrigin + ⟨(o.oldItemPosition - resizingOrigin).x * scale,
                          (o.oldItemPosition - resizingOrigin).y * scale⟩ ∧
      (resizeMovingObject renderer trig resizingOrigin scale o).newSize =
        ⟨o.oldSize.width * scale, o.oldSize.height * scale⟩) ∧
    ((snappedScreenPos - resizingOrigin).x / (start - resizingOrigin).x = 2 →
     (snappedScreenPos - resizingOrigin).y / (start - resizingOrigin).y = 3 →
     scale = 2) := by
  subst hscale
  refine ⟨rfl, le_min (le_max_left _ _) (le_max_left _ _), ?_, ?_⟩
  · intro o ho
    exact ⟨List.mem_map_of_mem _ ho, rfl, rfl⟩
  · intro hx hy
    simp only [multiResizeScale, if_neg Bool.false_ne_true, hx, hy]
    norm_num

/-- Witness for `multiResize_corner_min_scale`: with pivot (0,0), press
point (1,1) and current point (2,3) the per-axis ratios are 2 and 3, and
the applied scale factor is 2. -/
theorem multiResize_corner_min_scale_witness :
    multiResizeScale false false
      (Point.mk 2 3 - Point.mk 0 0) (Point.mk 1 1 - Point.mk 0 0) = 2 := by
  have h := multiResize_corner_min_scale idRenderer (fun _ => Rot.zero)
    ⟨0, 0⟩ ⟨1, 1⟩ ⟨2, 3⟩ [] _ rfl
  exact h.2.2.2 (by norm_num [Point.sub_def]) (by norm_num [Point.sub_def])

/-- C2 counterexample: dragging the top/bottom edge handle
(`limitHorizontal = true`) in a multi-object resize — here two selected
objects, so the `mMovingObjects.size() == 1` delegation to
`updateResizingSingleItem` is not taken — does NOT leave widths and
horizontal pivot-relative offsets unchanged. With pivot (0,0), press point
(3,5), current point (3,10), the vertical ratio is 2 and the code applies
the single factor 2 to BOTH axes of both objects: widths 10 and 8 become
20 and 16, and horizontal offsets 4 and 2 become 8 and 4. -/
theorem multiResize_edge_locks_horizontal_counterexample :
    ((updateResizingItems idRenderer (fun _ => Rot.zero) true false
        ⟨0, 0⟩ ⟨3, 5⟩ ⟨3, 10⟩
        [⟨0, ⟨4, 7⟩, ⟨4, 7⟩, ⟨10, 6⟩, [], 0⟩,
         ⟨1, ⟨2, 1⟩, ⟨2, 1⟩, ⟨8, 3⟩, [], 0⟩]).map
      (fun r => (r.newSize.width, r.newScreenPos.x)) =
        [((20 : ℚ), (8 : ℚ)), ((16 : ℚ), (4 : ℚ))]) ∧
    ¬ ((20 : ℚ) = 10 ∧ (16 : ℚ) = 8) := by
  constructor
  · norm_num [updateResizingItems, multiResizeScale, resizeMovingObject,
      Point.sub_def, Point.add_def]
  · norm_num

/-- C2 amended: for a multi-object resize with a top or bottom edge handle
(`limitHorizontal`), the single scale factor equals the vertical offset
ratio floored at 0.01 (the horizontal ratio is ignored), and symmetrically
a left/right edge handle (`limitVertical`) uses the horizontal ratio — but
the factor is applied uniformly to BOTH axes of every object's
pivot-relative position and size, so widths and horizontal offsets scale
by the vertical ratio too (they are not locked to 1). -/
theorem multiResize_edge_uniform_scale (renderer : Renderer) (trig : ℚ → Rot)
    (resizingOrigin start snappedScreenPos : Point)
    (movingObjects : List MovingObject) :
    multiResizeScale true false (snappedScreenPos - resizingOrigin) (start - resizingOrigin) =
      max (1/100) ((snappedScreenPos - resizingOrigin).y / (start - resizingOrigin).y) ∧
    multiResizeScale false true (snappedScreenPos - resizingOrigin) (start - resizingOrigin) =
      max (1/100) ((snappedScreenPos - resizingOrigin).x / (start - resizingOrigin).x) ∧
    (∀ limitH limitV : Bool, ∀ o ∈ movingObjects,
      resizeMovingObject renderer trig resizingOrigin
          (multiResizeScale limitH limitV (snappedScreenPos - resizingOrigin)
            (start - resizingOrigin)) o ∈
        updateResizingItems renderer trig limitH limitV resizingOrigin start
          snappedScreenPos movingObjects ∧
      (resizeMovingObject renderer trig resizingOrigin
          (multiResizeScale limitH limitV (snappedScreenPos - resizingOrigin)
            (start - resizingOrigin)) o).newScreenPos =
        resizingOrigin + ⟨(o.oldItemPosition - resizingOrigin).x *
            multiResizeScale limitH limitV (snappedScreenPos - resizingOrigin)
              (start - resizingOrigin),
          (o.oldItemPosition - resizingOrigin).y *
            multiResizeScale limitH limitV (snappedScreenPos - resizingOrigin)
              (start - resizingOrigin)⟩ ∧
      (resizeMovingObject renderer trig resizingOrigin
          (multiResizeScale limitH limitV (snappedScreenPos - resizingOrigin)
            (start - resizingOrigin)) o).newSize =
        ⟨o.oldSize.width *
            multiResizeScale limitH limitV (snappedScreenPos - resizingOrigin)
              (start - resizingOrigin),
          o.oldSize.height *
            multiResizeScale limitH limitV (snappedScreenPos - resizingOrigin)
              (start - resizingOrigin)⟩) := by
  refine ⟨rfl, rfl, ?_⟩
  intro limitH limitV o ho
  exact ⟨List.mem_map_of_mem _ ho, rfl, rfl⟩

/-- Witness for `multiResize_edge_uniform_scale`: at the counterexample's
two-object input (vertical ratio 2, top-edge handle) the first object's
size scales uniformly by the vertical-ratio factor on both axes. -/
theorem multiResize_edge_uniform_scale_witness :
    (resizeMovingObject idRenderer (fun _ => Rot.zero) ⟨0, 0⟩
        (multiResizeScale true false (Point.mk 3 10 - Point.mk 0 0)
          (Point.mk 3 5 - Point.mk 0 0))
        ⟨0, ⟨4, 7⟩, ⟨4, 7⟩, ⟨10, 6⟩, [], 0⟩).newSize =
      ⟨10 * multiResizeScale true false (Point.mk 3 10 - Point.mk 0 0)
          (Point.mk 3 5 - Point.mk 0 0),
        6 * multiResizeScale true false (Point.mk 3 10 - Point.mk 0 0)
          (Point.mk 3 5 - Point.mk 0 0)⟩ := by
  have h := multiResize_edge_uniform_scale idRenderer (fun _ => Rot.zero)
    ⟨0, 0⟩ ⟨3, 5⟩ ⟨3, 10⟩
    [⟨0, ⟨4, 7⟩, ⟨4, 7⟩, ⟨10, 6⟩, [], 0⟩, ⟨1, ⟨2, 1⟩, ⟨2, 1⟩, ⟨8, 3⟩, [], 0⟩]
  exact (h.2.2 true false _ (List.mem_cons_self _ _)).2.2

/-- `AnchorPosition` from objectselectiontool.cpp. -/
inductive AnchorPosition where
  | TopLeftAnchor
  | TopRightAnchor
  | BottomLeftAnchor
  | BottomRightAnchor
  | TopAnchor
  | LeftAnchor
  | RightAnchor
  | BottomAnchor
deriving DecidableEq, Repr

/-- `MapObject::Shape`. -/
inductive Shape where
  | Rectangle
  | Ellipse
  | Polygon
  | Polyline
deriving DecidableEq, Repr

/-- The first `switch` of the direct-clamp branch of
`updateResizingSingleItem`: clamp the dragged vertical edge (if any) to the
cursor, keeping the opposite edge at the resizing origin. -/
def clampBoundsX (anchor : AnchorPosition) (b : Rect) (pos origin : Point) : Rect :=
  match anchor with
  | .LeftAnchor | .TopLeftAnchor | .BottomLeftAnchor => b.setLeft (min pos.x origin.x)
  | .RightAnchor | .TopRightAnchor | .BottomRightAnchor => b.setRight (max pos.x origin.x)
  | _ => b

/-- The second `switch` of the direct-clamp branch of
`updateResizingSingleItem`: clamp the dragged horizontal edge (if any). -/
def clampBoundsY (anchor : AnchorPosition) (b : Rect) (pos origin : Point) : Rect :=
  match anchor with
  | .TopAnchor | .TopLeftAnchor | .TopRightAnchor => b.setTop (min pos.y origin.y)
  | .BottomAnchor | .BottomLeftAnchor | .BottomRightAnchor => b.setBottom (max pos.y origin.y)
  | _ => b

/-- Result of `ObjectSelectionTool::updateResizingSingleItem`: the values
written to the map object and its scene item. -/
structure SingleResizeResult where
  newPixelPos : Point
  newItemPos : Point
  newSize : SizeF
  newPolygon : Option (List Point)
deriving Repr

theorem Rot.inv_zero : Rot.zero.inv = Rot.zero := by
  simp [Rot.inv, Rot.zero]

/-- `ObjectSelectionTool::updateResizingSingleItem`. `object` is the single
snapshot entry; `oldRot` carries the cosine/sine of the object's
pre-gesture rotation (the angle used by the `unrotate`/`rotate`
transforms); `shape`, `alignment` and `cellEmpty` are the relevant
`MapObject` attributes; `clickedAnchor` and `clickedResizingOrigin` come
from `mClickedResizeHandle`; `start0` is `mStart`; `resizingOrigin` is the
active pivot chosen by `updateResizingItems` and `screenPos` the
(possibly snapped) pointer position. -/
def updateResizingSingleItem (renderer : Renderer) (object : MovingObject)
    (oldRot : Rot) (shape : Shape) (alignment : Alignment) (cellEmpty : Bool)
    (clickedAnchor : AnchorPosition) (clickedResizingOrigin : Point)
    (limitHorizontal limitVertical : Bool) (start0 : Point)
    (resizingOrigin screenPos : Point) (preserveAspect : Bool) :
    SingleResizeResult :=
  let unrotate := rotateAt object.oldItemPosition oldRot.inv
  let rotate := rotateAt object.oldItemPosition oldRot
  let origin0 := unrotate resizingOrigin
  let pos0 := unrotate screenPos
  let st0 := unrotate start0
  let pixelSpace := cellEmpty
  let origin := if pixelSpace then renderer.screenToPixelCoords origin0 else origin0
  let pos := if pixelSpace then renderer.screenToPixelCoords pos0 else pos0
  let start := if pixelSpace then renderer.screenToPixelCoords st0 else st0
  let oldPos := if pixelSpace then object.oldPosition else object.oldItemPosition
  let res : Point × SizeF × Option (List Point) :=
    if clickedResizingOrigin = resizingOrigin ∧
        (shape = Shape.Rectangle ∨ shape = Shape.Ellipse) ∧
        preserveAspect = false then
      let newBounds := align ⟨oldPos.x, oldPos.y,
                              object.oldSize.width, object.oldSize.height⟩ alignment
      let newBounds := clampBoundsX clickedAnchor newBounds pos origin
      let newBounds := clampBoundsY clickedAnchor newBounds pos origin
      let newBounds := unalign newBounds alignment
      (newBounds.topLeft, newBounds.size, none)
    else
      let relPos := pos - origin
      let startDiff := start - origin
      let sfW := max (1/100) (relPos.x / startDiff.x)
      let sfH := max (1/100) (relPos.y / startDiff.y)
      let sf : ℚ × ℚ :=
        if limitHorizontal then
          (if preserveAspect then sfH else 1, sfH)
        else if limitVertical then
          (sfW, if preserveAspect then sfW else 1)
        else if preserveAspect then
          (min sfW sfH, min sfW sfH)
        else
          (sfW, sfH)
      let oldRelPos := oldPos - origin
      let newPos : Point := origin + ⟨oldRelPos.x * sf.1, oldRelPos.y * sf.2⟩
      let newSize : SizeF := ⟨object.oldSize.width * sf.1,
                              object.oldSize.height * sf.2⟩
      let newPolygon :=
        if object.oldPolygon.isEmpty then none
        else some (object.oldPolygon.map (fun p => ⟨p.x * sf.1, p.y * sf.2⟩))
      (newPos, newSize, newPolygon)
  let unprojected := if pixelSpace then renderer.pixelToScreenCoords res.1 else res.1
  let finalPos := renderer.screenToPixelCoords (rotate unprojected)
  ⟨finalPos, renderer.pixelToScreenCoords finalPos, res.2.1, res.2.2⟩

theorem Point.eta (p : Point) : Point.mk p.x p.y = p := rfl

/-- C3: For a single selected non-tile 0×0 Rectangle object (so
`cellEmpty = true` and alignment is TopLeft, the value `MapObject` reports
for non-tile objects), with pre-gesture rotation zero, dragging the
bottom-right resize handle — whose recorded opposite point is still the
active pivot (no use-center modifier) and with no aspect-preserving
modifier — to a point 20 pixels right and 10 pixels down of the pivot
yields size (20, 10) and a position equal to the pivot mapped back to
pixel space, via direct edge clamping (no scale-ratio division). -/
theorem singleResize_zero_size_growth
    (renderer : Renderer) (object : MovingObject)
    (start0 resizingOrigin screenPos : Point)
    (hinv : ∀ p, renderer.screenToPixelCoords (renderer.pixelToScreenCoords p) = p)
    (hsize : object.oldSize = ⟨0, 0⟩)
    (hpos : renderer.screenToPixelCoords resizingOrigin = object.oldPosition)
    (hdrag : renderer.screenToPixelCoords screenPos = object.oldPosition + ⟨20, 10⟩) :
    (updateResizingSingleItem renderer object Rot.zero Shape.Rectangle
        Alignment.TopLeft true AnchorPosition.BottomRightAnchor resizingOrigin
        false false start0 resizingOrigin screenPos false).newSize = ⟨20, 10⟩ ∧
    (updateResizingSingleItem renderer object Rot.zero Shape.Rectangle
        Alignment.TopLeft true AnchorPosition.BottomRightAnchor resizingOrigin
        false false start0 resizingOrigin screenPos false).newPixelPos =
      renderer.screenToPixelCoords resizingOrigin := by
  have hmx : max (object.oldPosition.x + 20) object.oldPosition.x =
      object.oldPosition.x + 20 := max_eq_left (by linarith)
  have hmy : max (object.oldPosition.y + 10) object.oldPosition.y =
      object.oldPosition.y + 10 := max_eq_left (by linarith)
  simp only [updateResizingSingleItem, Rot.inv_zero, rotateAt_zero, hsize, hpos,
    hdrag, Point.add_def, Point.neg_def, if_true, eq_self_iff_true, true_and,
    and_true, or_true, true_or, if_pos, clampBoundsX, clampBoundsY, align,
    unalign, alignmentOffset, Rect.translate, Rect.setRight, Rect.setBottom,
    Rect.topLeft, Rect.size, hmx, hmy]
  norm_num [Point.eta, hinv, hpos]

/-- Witness for `singleResize_zero_size_growth`: the identity renderer, a
0×0 object at pixel position (0, 0), pivot (0, 0), cursor at (20, 10). -/
theorem singleResize_zero_size_growth_witness :
    (updateResizingSingleItem idRenderer ⟨0, ⟨0, 0⟩, ⟨0, 0⟩, ⟨0, 0⟩, [], 0⟩
        Rot.zero Shape.Rectangle Alignment.TopLeft true
        AnchorPosition.BottomRightAnchor ⟨0, 0⟩ false false ⟨0, 0⟩
        ⟨0, 0⟩ ⟨20, 10⟩ false).newSize = ⟨20, 10⟩ ∧
    (updateResizingSingleItem idRenderer ⟨0, ⟨0, 0⟩, ⟨0, 0⟩, ⟨0, 0⟩, [], 0⟩
        Rot.zero Shape.Rectangle Alignment.TopLeft true
        AnchorPosition.BottomRightAnchor ⟨0, 0⟩ false false ⟨0, 0⟩
        ⟨0, 0⟩ ⟨20, 10⟩ false).newPixelPos =
      idRenderer.screenToPixelCoords ⟨0, 0⟩ :=
  singleResize_zero_size_growth idRenderer ⟨0, ⟨0, 0⟩, ⟨0, 0⟩, ⟨0, 0⟩, [], 0⟩
    ⟨0, 0⟩ ⟨0, 0⟩ ⟨20, 10⟩ (fun _ => rfl) rfl rfl (by norm_num [idRenderer, Point.add_def])

/-- The angle snapping of `ObjectSelectionTool::updateRotatingItems`,
expressed in degrees. The code works in radians with
`snap = 15 * M_PI / 180` and computes
`floor((angleDiff + snap / 2) / snap) * snap` when the Control modifier is
held; converting exactly to degrees gives `floor((d + 15/2) / 15) * 15`.
`angleDiff` is the `atan2` difference between the pivot→press and
pivot→current directions, supplied as an input (it is transcendental in
the press/current coordinates). -/
def snapRotationAngle (snapModifier : Bool) (angleDiff : ℚ) : ℚ :=
  if snapModifier then ((⌊(angleDiff + 15/2) / 15⌋ : ℤ) : ℚ) * 15 else angleDiff

/-- Result of the live rotate update for one object. -/
structure RotatedObject where
  id : ℕ
  newItemPos : Point
  newPixelPos : Point
  newRotation : ℚ
deriving Repr

/-- `ObjectSelectionTool::updateRotatingItems`: quantize the angle
difference when the snap modifier is held, rotate every snapshot object's
pre-gesture screen position about the pivot by that angle, and set its
rotation to the pre-gesture rotation plus the angle (in degrees). `trig`
supplies the cosine/sine of the (snapped) angle. -/
def updateRotatingItems (renderer : Renderer) (origin : Point)
    (snapModifier : Bool) (angleDiff : ℚ) (trig : ℚ → Rot)
    (movingObjects : List MovingObject) : List RotatedObject :=
  let d := snapRotationAngle snapModifier angleDiff
  let r := trig d
  movingObjects.map fun o =>
    let oldRelPos := o.oldItemPosition - origin
    let newRelPos : Point := ⟨oldRelPos.x * r.cs - oldRelPos.y * r.sn,
                              oldRelPos.x * r.sn + oldRelPos.y * r.cs⟩
    let newPixelPos := origin + newRelPos
    ⟨o.id, newPixelPos, renderer.screenToPixelCoords newPixelPos,
      o.oldRotation + d⟩

/-- C4: During a Rotating gesture with the snap modifier held, the applied
angle delta equals `floor((angleDiff + 7.5°) / 15°) * 15°` — a multiple of
15° within half a step (7.5°) of the raw `atan2` angle difference, i.e.
the nearest multiple with ties rounded half-up — and every object's
resulting rotation is its pre-gesture rotation plus this delta; an arc of
92° snaps to exactly 90°. -/
theorem rotating_snaps_to_15_degrees (renderer : Renderer) (origin : Point)
    (angleDiff : ℚ) (trig : ℚ → Rot) (movingObjects : List MovingObject)
    (d : ℚ) (hd : d = snapRotationAngle true angleDiff) :
    d = ((⌊(angleDiff + 15/2) / 15⌋ : ℤ) : ℚ) * 15 ∧
    (∃ k : ℤ, d = (k : ℚ) * 15) ∧
    |d - angleDiff| ≤ 15/2 ∧
    (∀ o ∈ movingObjects,
      ∃ r ∈ updateRotatingItems renderer origin true angleDiff trig movingObjects,
        r.id = o.id ∧ r.newRotation = o.oldRotation + d) ∧
    (angleDiff = 92 → d = 90) := by
  subst hd
  simp only [snapRotationAngle, if_pos]
  refine ⟨trivial, ⟨⌊(angleDiff + 15/2) / 15⌋, rfl⟩, ?_, ?_, ?_⟩
  · have h1 : ((⌊(angleDiff + 15/2) / 15⌋ : ℤ) : ℚ) ≤ (angleDiff + 15/2) / 15 :=
      Int.floor_le _
    have h2 : (angleDiff + 15/2) / 15 < ((⌊(angleDiff + 15/2) / 15⌋ : ℤ) : ℚ) + 1 :=
      Int.lt_floor_add_one _
    rw [abs_le]
    constructor <;> [nlinarith; nlinarith]
  · intro o ho
    exact ⟨_, List.mem_map_of_mem _ ho, rfl, rfl⟩
  · intro h
    subst h
    norm_num

/-- Witness for `rotating_snaps_to_15_degrees`: at `angleDiff = 92` the
snapped delta is 90, and a single object with pre-gesture rotation 0 ends
at rotation 90. -/
theorem rotating_snaps_to_15_degrees_witness :
    snapRotationAngle true 92 = 90 := by
  have h := rotating_snaps_to_15_degrees idRenderer ⟨0, 0⟩ 92
    (fun _ => Rot.zero) [] _ rfl
  exact h.2.2.2.2 rfl

/-- `ObjectSelectionTool::Action`. -/
inductive Action where
  | NoAction
  | Selecting
  | Moving
  | Rotating
  | Resizing
deriving DecidableEq, Repr

/-- The mutable state of one map object and its scene item that the tool
touches: pixel position (`MapObject::setPosition`), screen item position
(`MapObjectItem::setPos`), rotation, size and polygon. -/
structure ObjState where
  position : Point
  itemPos : Point
  rotation : ℚ
  size : SizeF
  polygon : List Point
deriving DecidableEq, Repr

/-- The undo commands pushed by the tool, each carrying the value it
restores on undo (`MoveMapObject`, `RotateMapObject`, `ResizeMapObject`,
`ChangePolygon`). -/
inductive Command where
  | moveMapObject (id : ℕ) (oldPosition : Point)
  | rotateMapObject (id : ℕ) (oldRotation : ℚ)
  | resizeMapObject (id : ℕ) (oldSize : SizeF)
  | changePolygon (id : ℕ) (oldPolygon : List Point)
deriving DecidableEq, Repr

/-- The tool state threaded through the gesture-lifecycle handlers:
the current action flag, the snapshot list `mMovingObjects`, the press
point `mStart`, the object states addressed by id, and the undo stack as a
list of pushed transactions (each one macro = one list of commands). -/
structure ToolState where
  action : Action
  movingObjects : List MovingObject
  start : Point
  world : ℕ → ObjState
  undoStack : List (List Command)

/-- The rollback applied per remaining object by
`ObjectSelectionTool::objectsRemoved`: restore pixel position and item
position, and the rotation as well when the active gesture is Rotating. -/
def restoreOnRemoval (action : Action) (o : MovingObject) (st : ObjState) : ObjState :=
  { st with
    position := o.oldPosition,
    itemPos := o.oldItemPosition,
    rotation := if action = Action.Rotating then o.oldRotation else st.rotation }

/-- One iteration of the rollback loop of `objectsRemoved`: objects in the
removed list are skipped, the others are restored. -/
def removeStep (action : Action) (removed : List ℕ)
    (w : ℕ → ObjState) (o : MovingObject) : ℕ → ObjState :=
  if o.id ∈ removed then w
  else Function.update w o.id (restoreOnRemoval action o (w o.id))

/-- `ObjectSelectionTool::objectsRemoved`: a no-op unless a Moving or
Rotating gesture is active; otherwise every snapshot object whose map
object is not in the removed list is rolled back, and the snapshot list is
cleared. The action flag is left untouched. -/
def objectsRemoved (removed : List ℕ) (s : ToolState) : ToolState :=
  if s.action ≠ Action.Moving ∧ s.action ≠ Action.Rotating then s
  else
    { s with
      world := s.movingObjects.foldl (removeStep s.action removed) s.world,
      movingObjects := [] }

/-- `ObjectSelectionTool::finishMoving`: reset the action flag, and — only
when the release point differs from `mStart` — push one macro containing
one `MoveMapObject` per snapshot object (carrying its pre-gesture
position) and clear the snapshot list. -/
def finishMoving (pos : Point) (s : ToolState) : ToolState :=
  let s1 := { s with action := Action.NoAction }
  if s.start = pos then s1
  else
    { s1 with
      undoStack := s1.undoStack ++
        [s.movingObjects.map fun o => Command.moveMapObject o.id o.oldPosition],
      movingObjects := [] }

/-- `ObjectSelectionTool::finishRotating`: like `finishMoving`, but the
macro holds a position-restore and a rotation-restore command per object. -/
def finishRotating (pos : Point) (s : ToolState) : ToolState :=
  let s1 := { s with action := Action.NoAction }
  if s.start = pos then s1
  else
    { s1 with
      undoStack := s1.undoStack ++
        [s.movingObjects.foldr
          (fun o acc => Command.moveMapObject o.id o.oldPosition ::
            Command.rotateMapObject o.id o.oldRotation :: acc) []],
      movingObjects := [] }

/-- `ObjectSelectionTool::finishResizing`: like `finishMoving`, but the
macro holds a position-restore, a size-restore and — when the snapshot
carries a polygon — a polygon-restore command per object. -/
def finishResizing (pos : Point) (s : ToolState) : ToolState :=
  let s1 := { s with action := Action.NoAction }
  if s.start = pos then s1
  else
    { s1 with
      undoStack := s1.undoStack ++
        [s.movingObjects.foldr
          (fun o acc => Command.moveMapObject o.id o.oldPosition ::
            Command.resizeMapObject o.id o.oldSize ::
            (if o.oldPolygon.isEmpty then acc
             else Command.changePolygon o.id o.oldPolygon :: acc)) []],
      movingObjects := [] }

/-- The effect of undoing one command: each command restores, by value,
the field it carries. -/
def undoCommand (w : ℕ → ObjState) : Command → (ℕ → ObjState)
  | Command.moveMapObject i p => Function.update w i { w i with position := p }
  | Command.rotateMapObject i r => Function.update w i { w i with rotation := r }
  | Command.resizeMapObject i sz => Function.update w i { w i with size := sz }
  | Command.changePolygon i poly => Function.update w i { w i with polygon := poly }

/-- Undoing one transaction (macro): commands are undone in reverse push
order. -/
def undoTransaction (t : List Command) (w : ℕ → ObjState) : ℕ → ObjState :=
  t.foldr (fun c w => undoCommand w c) w

theorem foldl_removeStep_not_touched (action : Action) (removed : List ℕ)
    (l : List MovingObject) (w : ℕ → ObjState) (k : ℕ)
    (h : ∀ o ∈ l, o.id ≠ k) :
    (l.foldl (removeStep action removed) w) k = w k := by
  induction l generalizing w with
  | nil => rfl
  | cons o rest ih =>
    simp only [List.foldl_cons]
    rw [ih _ (fun o' ho' => h o' (List.mem_cons_of_mem _ ho'))]
    unfold removeStep
    by_cases hm : o.id ∈ removed
    · rw [if_pos hm]
    · rw [if_neg hm, Function.update_noteq (Ne.symm (h o (List.mem_cons_self o rest)))]

theorem foldl_removeStep_restores (action : Action) (removed : List ℕ)
    (l : List MovingObject) (w : ℕ → ObjState)
    (hnodup : (l.map MovingObject.id).Nodup)
    (o : MovingObject) (ho : o ∈ l) (hnr : o.id ∉ removed) :
    ((l.foldl (removeStep action removed) w) o.id).position = o.oldPosition ∧
    ((l.foldl (removeStep action removed) w) o.id).itemPos = o.oldItemPosition ∧
    (action = Action.Rotating →
      ((l.foldl (removeStep action removed) w) o.id).rotation = o.oldRotation) := by
  induction l generalizing w with
  | nil => cases ho
  | cons p rest ih =>
    rcases List.mem_cons.mp ho with rfl | hmem
    · have hrest : ∀ o' ∈ rest, o'.id ≠ o.id := by
        intro o' ho' he
        have hnotmem : o.id ∉ rest.map MovingObject.id :=
          (List.nodup_cons.mp (by simpa using hnodup)).1
        exact hnotmem (he ▸ List.mem_map_of_mem _ ho')
      simp only [List.foldl_cons]
      rw [foldl_removeStep_not_touched _ _ _ _ _ hrest]
      unfold removeStep
      rw [if_neg hnr, Function.update_same]
      exact ⟨rfl, rfl, fun ha => by simp [restoreOnRemoval, ha]⟩
    · simp only [List.foldl_cons]
      exact ih _ ((List.nodup_cons.mp (by simpa using hnodup)).2) hmem

/-- C5: If the object-removal notification fires while a Moving or
Rotating gesture is active, every snapshot object not in the removed list
is restored to its pre-gesture pixel position and screen-item position
(and, for a Rotating gesture, its pre-gesture rotation), the snapshot
list becomes empty, and the action flag keeps its current value. -/
theorem objectsRemoved_rolls_back (removed : List ℕ) (s : ToolState)
    (hact : s.action = Action.Moving ∨ s.action = Action.Rotating)
    (hnodup : (s.movingObjects.map MovingObject.id).Nodup) :
    (objectsRemoved removed s).action = s.action ∧
    (objectsRemoved removed s).movingObjects = [] ∧
    ∀ o ∈ s.movingObjects, o.id ∉ removed →
      ((objectsRemoved removed s).world o.id).position = o.oldPosition ∧
      ((objectsRemoved removed s).world o.id).itemPos = o.oldItemPosition ∧
      (s.action = Action.Rotating →
        ((objectsRemoved removed s).world o.id).rotation = o.oldRotation) := by
  have hcond : ¬ (s.action ≠ Action.Moving ∧ s.action ≠ Action.Rotating) := by
    rcases hact with h | h <;> simp [h]
  unfold objectsRemoved
  rw [if_neg hcond]
  exact ⟨rfl, rfl, fun o ho hnr =>
    foldl_removeStep_restores s.action removed s.movingObjects s.world hnodup o ho hnr⟩

/-- Witness for `objectsRemoved_rolls_back`: a Rotating gesture over one
object with id 1, with object 9 removed; the remaining object is rolled
back to pixel position (4, 5), item position (2, 3) and rotation 30. -/
theorem objectsRemoved_rolls_back_witness :
    ((objectsRemoved [9]
        { action := Action.Rotating,
          movingObjects := [⟨1, ⟨2, 3⟩, ⟨4, 5⟩, ⟨6, 7⟩, [], 30⟩],
          start := ⟨0, 0⟩,
          world := fun _ => ⟨⟨8, 8⟩, ⟨8, 8⟩, 77, ⟨9, 9⟩, []⟩,
          undoStack := [] }).world 1).position = ⟨4, 5⟩ := by
  have h := objectsRemoved_rolls_back [9]
    { action := Action.Rotating,
      movingObjects := [⟨1, ⟨2, 3⟩, ⟨4, 5⟩, ⟨6, 7⟩, [], 30⟩],
      start := ⟨0, 0⟩,
      world := fun _ => ⟨⟨8, 8⟩, ⟨8, 8⟩, 77, ⟨9, 9⟩, []⟩,
      undoStack := [] }
    (Or.inr rfl) (by simp)
  exact (h.2.2 _ (List.mem_singleton.mpr rfl) (by decide)).1

/-- C10: If the object-removal notification fires while a Resizing gesture
is active, the handler returns immediately without modifying any state:
the rollback applies only to Moving and Rotating gestures. -/
theorem objectsRemoved_resizing_noop (removed : List ℕ) (s : ToolState)
    (h : s.action = Action.Resizing) : objectsRemoved removed s = s := by
  unfold objectsRemoved
  rw [if_pos]
  constructor <;> simp [h]

/-- Witness for `objectsRemoved_resizing_noop`: a concrete Resizing state
is untouched by a removal notification. -/
theorem objectsRemoved_resizing_noop_witness :
    objectsRemoved [1]
      { action := Action.Resizing,
        movingObjects := [⟨1, ⟨2, 3⟩, ⟨4, 5⟩, ⟨6, 7⟩, [], 30⟩],
        start := ⟨0, 0⟩,
        world := fun _ => ⟨⟨8, 8⟩, ⟨8, 8⟩, 77, ⟨9, 9⟩, []⟩,
        undoStack := [] } =
      { action := Action.Resizing,
        movingObjects := [⟨1, ⟨2, 3⟩, ⟨4, 5⟩, ⟨6, 7⟩, [], 30⟩],
        start := ⟨0, 0⟩,
        world := fun _ => ⟨⟨8, 8⟩, ⟨8, 8⟩, 77, ⟨9, 9⟩, []⟩,
        undoStack := [] } :=
  objectsRemoved_resizing_noop [1] _ rfl

theorem undoTransaction_restores_positions (l : List MovingObject)
    (w : ℕ → ObjState) (hnodup : (l.map MovingObject.id).Nodup)
    (o : MovingObject) (ho : o ∈ l) :
    ((undoTransaction (l.map fun o => Command.moveMapObject o.id o.oldPosition) w)
      o.id).position = o.oldPosition := by
  induction l with
  | nil => cases ho
  | cons p rest ih =>
    simp only [List.map_cons, undoTransaction, List.foldr_cons]
    rcases List.mem_cons.mp ho with rfl | hmem
    · simp [undoCommand]
    · have hne : p.id ≠ o.id := by
        intro he
        have hnotmem : p.id ∉ rest.map MovingObject.id :=
          (List.nodup_cons.mp (by simpa using hnodup)).1
        exact hnotmem (he ▸ List.mem_map_of_mem _ hmem)
      simp only [undoCommand]
      rw [Function.update_noteq (Ne.symm hne)]
      exact ih ((List.nodup_cons.mp (by simpa using hnodup)).2) hmem

/-- C6: For a finished Moving gesture: if the release point equals the
press point, no undo transaction is pushed; otherwise exactly one
transaction is appended, containing exactly one move command per snapshot
object, each carrying that object's pre-gesture position — so undoing that
single transaction restores every moved object (distinct ids) to its exact
original position, whatever the current world state is. -/
theorem finishMoving_undo_transaction (pos : Point) (s : ToolState)
    (w : ℕ → ObjState)
    (hnodup : (s.movingObjects.map MovingObject.id).Nodup) :
    (s.start = pos → (finishMoving pos s).undoStack = s.undoStack) ∧
    (s.start ≠ pos →
      (finishMoving pos s).undoStack = s.undoStack ++
        [s.movingObjects.map fun o => Command.moveMapObject o.id o.oldPosition] ∧
      (s.movingObjects.map fun o =>
        Command.moveMapObject o.id o.oldPosition).length =
          s.movingObjects.length ∧
      ∀ o ∈ s.movingObjects,
        ((undoTransaction
            (s.movingObjects.map fun o => Command.moveMapObject o.id o.oldPosition)
            w) o.id).position = o.oldPosition) := by
  constructor
  · intro h
    simp [finishMoving, h]
  · intro h
    refine ⟨by simp [finishMoving, h], by simp, ?_⟩
    intro o ho
    exact undoTransaction_restores_positions s.movingObjects w hnodup o ho

/-- Witness for `finishMoving_undo_transaction`: a one-object move from
(1, 1) finished at (5, 5) pushes exactly the singleton transaction, and
undoing it puts the object back at (4, 5). -/
theorem finishMoving_undo_transaction_witness :
    (finishMoving ⟨5, 5⟩
      { action := Action.Moving,
        movingObjects := [⟨1, ⟨2, 3⟩, ⟨4, 5⟩, ⟨6, 7⟩, [], 0⟩],
        start := ⟨1, 1⟩,
        world := fun _ => ⟨⟨8, 8⟩, ⟨8, 8⟩, 0, ⟨9, 9⟩, []⟩,
        undoStack := [] }).undoStack =
      [] ++ [[Command.moveMapObject 1 ⟨4, 5⟩]] := by
  have h := finishMoving_undo_transaction ⟨5, 5⟩
    { action := Action.Moving,
      movingObjects := [⟨1, ⟨2, 3⟩, ⟨4, 5⟩, ⟨6, 7⟩, [], 0⟩],
      start := ⟨1, 1⟩,
      world := fun _ => ⟨⟨8, 8⟩, ⟨8, 8⟩, 0, ⟨9, 9⟩, []⟩,
      undoStack := [] }
    (fun _ => ⟨⟨8, 8⟩, ⟨8, 8⟩, 0, ⟨9, 9⟩, []⟩) (by simp)
  simpa using (h.2 (by simp [Point.mk.injEq])).1

/-- C7 counterexample: when the release point equals the gesture's start
point, `finishMoving` returns before clearing the snapshot list, so the
list is NOT empty after the handler: a Moving gesture over one object,
started and released at (0, 0), keeps its one-element snapshot. -/
theorem finish_keeps_snapshot_on_noop_counterexample :
    (finishMoving ⟨0, 0⟩
      { action := Action.Moving,
        movingObjects := [⟨0, ⟨1, 2⟩, ⟨1, 2⟩, ⟨3, 4⟩, [], 0⟩],
        start := ⟨0, 0⟩,
        world := fun _ => ⟨⟨0, 0⟩, ⟨0, 0⟩, 0, ⟨0, 0⟩, []⟩,
        undoStack := [] }).movingObjects ≠ [] := by
  simp [finishMoving]

/-- C7 amended: the snapshot list created at gesture start is cleared by
the finish handler of each gesture (move, rotate, resize) whenever the
release point differs from the gesture's start point; when the release
point equals the start point the handler returns early and the snapshot
list is left unchanged (it is discarded only at the start of the next
gesture). -/
theorem finish_clears_snapshot (pos : Point) (s : ToolState) :
    (pos ≠ s.start →
      (finishMoving pos s).movingObjects = [] ∧
      (finishRotating pos s).movingObjects = [] ∧
      (finishResizing pos s).movingObjects = []) ∧
    (pos = s.start →
      (finishMoving pos s).movingObjects = s.movingObjects ∧
      (finishRotating pos s).movingObjects = s.movingObjects ∧
      (finishResizing pos s).movingObjects = s.movingObjects) := by
  constructor
  · intro h
    have h' : ¬ (s.start = pos) := fun he => h he.symm
    refine ⟨?_, ?_, ?_⟩ <;>
      simp [finishMoving, finishRotating, finishResizing, h']
  · intro h
    subst h
    refine ⟨?_, ?_, ?_⟩ <;>
      simp [finishMoving, finishRotating, finishResizing]

/-- Witness for `finish_clears_snapshot`: a gesture started at (1, 1) and
released at (5, 5) ends with an empty snapshot list in all three finish
handlers. -/
theorem finish_clears_snapshot_witness :
    (finishMoving ⟨5, 5⟩
      { action := Action.Moving,
        movingObjects := [⟨0, ⟨1, 2⟩, ⟨1, 2⟩, ⟨3, 4⟩, [], 0⟩],
        start := ⟨1, 1⟩,
        world := fun _ => ⟨⟨0, 0⟩, ⟨0, 0⟩, 0, ⟨0, 0⟩, []⟩,
        undoStack := [] }).movingObjects = [] := by
  have h := finish_clears_snapshot ⟨5, 5⟩
    { action := Action.Moving,
      movingObjects := [⟨0, ⟨1, 2⟩, ⟨1, 2⟩, ⟨3, 4⟩, [], 0⟩],
      start := ⟨1, 1⟩,
      world := fun _ => ⟨⟨0, 0⟩, ⟨0, 0⟩, 0, ⟨0, 0⟩, []⟩,
      undoStack := [] }
  exact (h.1 (by simp [Point.mk.injEq])).1

/-- `QPoint::manhattanLength` of the difference of two device (screen)
points, as used by `mouseMoved`: `(mScreenStart - screenPos).manhattanLength()`. -/
def manhattanLength (p q : ℤ × ℤ) : ℤ :=
  |p.1 - q.1| + |p.2 - q.2|

/-- The gesture chosen by `ObjectSelectionTool::mouseMoved` once the drag
threshold is reached: Moving if an object was clicked or Alt is held,
provided Shift is not held; otherwise Rotating on a clicked rotate handle;
otherwise Resizing on a clicked resize handle; otherwise Selecting. -/
def dispatchGesture (clickedObjectItem altModifier shiftModifier
    clickedRotateHandle clickedResizeHandle : Bool) : Action :=
  if (clickedObjectItem || altModifier) && !shiftModifier then Action.Moving
  else if clickedRotateHandle then Action.Rotating
  else if clickedResizeHandle then Action.Resizing
  else Action.Selecting

/-- The action-flag effect of `ObjectSelectionTool::mouseMoved`: when no
gesture is active, the mouse is pressed and the accumulated device-space
movement reaches `QApplication::startDragDistance()`, exactly one gesture
starts according to `dispatchGesture`; otherwise the action flag is
unchanged. -/
def mouseMovedAction (action : Action) (mousePressed : Bool)
    (screenStart screenPos : ℤ × ℤ) (startDragDistance : ℤ)
    (clickedObjectItem clickedRotateHandle clickedResizeHandle
     altModifier shiftModifier : Bool) : Action :=
  if action = Action.NoAction ∧ mousePressed = true then
    if startDragDistance ≤ manhattanLength screenStart screenPos then
      dispatchGesture clickedObjectItem altModifier shiftModifier
        clickedRotateHandle clickedResizeHandle
    else action
  else action

/-- C8: With the pointer pressed and no gesture active, once the
accumulated movement reaches the platform drag threshold exactly one
gesture starts, picked by priority Moving (object clicked or Alt, and no
Shift) > Rotating (rotate handle) > Resizing (resize handle) > Selecting;
below the threshold the gesture stays `NoAction` regardless of modifiers
or click target. -/
theorem mouseMoved_dispatch (screenStart screenPos : ℤ × ℤ)
    (startDragDistance : ℤ)
    (clickedObjectItem clickedRotateHandle clickedResizeHandle
     altModifier shiftModifier : Bool) :
    (manhattanLength screenStart screenPos < startDragDistance →
      mouseMovedAction Action.NoAction true screenStart screenPos
        startDragDistance clickedObjectItem clickedRotateHandle
        clickedResizeHandle altModifier shiftModifier = Action.NoAction) ∧
    (startDragDistance ≤ manhattanLength screenStart screenPos →
      mouseMovedAction Action.NoAction true screenStart screenPos
          startDragDistance clickedObjectItem clickedRotateHandle
          clickedResizeHandle altModifier shiftModifier =
        (if (clickedObjectItem || altModifier) && !shiftModifier then
          Action.Moving
         else if clickedRotateHandle then Action.Rotating
         else if clickedResizeHandle then Action.Resizing
         else Action.Selecting) ∧
      mouseMovedAction Action.NoAction true screenStart screenPos
          startDragDistance clickedObjectItem clickedRotateHandle
          clickedResizeHandle altModifier shiftModifier ≠ Action.NoAction) := by
  constructor
  · intro h
    simp [mouseMovedAction, not_le.mpr h]
  · intro h
    refine ⟨by simp [mouseMovedAction, h, dispatchGesture], ?_⟩
    simp only [mouseMovedAction, if_pos h, eq_self_iff_true, and_self, if_true,
      dispatchGesture]
    rcases clickedObjectItem <;> rcases altModifier <;> rcases shiftModifier <;>
      rcases clickedRotateHandle <;> rcases clickedResizeHandle <;> simp

/-- Witness for `mouseMoved_dispatch`: with threshold 10, a 3-unit drag
leaves the action at `NoAction`, and a 12-unit drag with a clicked object
starts a Moving gesture. -/
theorem mouseMoved_dispatch_witness :
    mouseMovedAction Action.NoAction true (0, 0) (0, 3) 10
      true false false false false = Action.NoAction ∧
    mouseMovedAction Action.NoAction true (0, 0) (0, 12) 10
      true false false false false = Action.Moving := by
  have h1 := mouseMoved_dispatch (0, 0) (0, 3) 10 true false false false false
  have h2 := mouseMoved_dispatch (0, 0) (0, 12) 10 true false false false false
  refine ⟨h1.1 (by decide), ?_⟩
  have h3 := (h2.2 (by decide)).1
  simpa using h3

end Tiled
